import Mathlib

/-!
Verification of the SurfSense backend excerpt: the config-exposure routes
(`app/routes/config_routes.py`, `app/routes/auth_config_routes.py`), the
startup model-provisioning routine (`app/services/startup.py`) and the
bootstrap wrapper in `main.py`, shallowly embedded in Lean.

The process environment is a record of optional string variables; the
filesystem state relevant to the routine (the model root, the `easyocr`
subdirectory, the HuggingFace hub cache) is a small record; the external
libraries (`easyocr.Reader`, `docling.DocumentConverter`) are oracles whose
outcome is part of a `World` parameter.  Logging is modelled as a list of
level-tagged messages, and Python exceptions as `Except String`.
-/

/-- The process environment: `AUTH_TYPE`, `ETL_SERVICE`, `MODEL_PATH`;
`none` means the variable is unset, `some s` that it is set to `s`
(possibly the empty string). -/
structure Env where
  authType : Option String
  etlService : Option String
  modelPath : Option String
deriving Repr, DecidableEq

/-- Python `os.getenv(name, default)`: the default applies only when the
variable is unset; a set-but-empty value is returned as is. -/
def getenvD (v : Option String) (d : String) : String :=
  v.getD d

/-- Python `os.getenv(name) or default` (and `config.X or default`): the
default applies when the variable is unset OR set to the empty string,
since `""` is falsy in Python. -/
def pyOr (v : Option String) (d : String) : String :=
  match v with
  | none => d
  | some s => if s = "" then d else s

/-- Python `str.upper()` on the string's characters.  `Char.toUpper`
upper-cases exactly the basic-latin letters, which is faithful for the
ASCII configuration tokens this code handles. -/
def pyUpper (s : String) : String :=
  ⟨s.data.map Char.toUpper⟩

/-- Python `str.rstrip("/")`. -/
def rstripSlash (s : String) : String :=
  s.dropRightWhile (fun c => c = '/')

/-- Is `c` a lower-case ASCII letter? -/
def isLowerAscii (c : Char) : Bool :=
  97 ≤ c.toNat && c.toNat ≤ 122

/-- `s` contains no lower-case ASCII letter: the formalisation of
"is an upper-case string". -/
def noLowerAscii (s : String) : Bool :=
  s.data.all (fun c => !(isLowerAscii c))

/-! ## The config-exposure routes -/

/-- Feature flags of the `GET /config` response. -/
structure Features where
  googleAuthEnabled : Bool
  localAuthEnabled : Bool
deriving Repr, DecidableEq

/-- The `GET /config` response body (`config_routes.get_frontend_config`). -/
structure FrontendConfig where
  authType : String
  etlService : String
  backendUrl : String
  features : Features
deriving Repr, DecidableEq

/-- `config_routes.get_frontend_config`: reads `AUTH_TYPE`/`ETL_SERVICE`
with `os.getenv(...) or default` and returns them verbatim together with
the equality-derived feature flags.  Note: no `.upper()` here. -/
def get_frontend_config (env : Env) : FrontendConfig :=
  let auth_type := pyOr env.authType "GOOGLE"
  let etl_service := pyOr env.etlService "UNSTRUCTURED"
  { authType := auth_type
    etlService := etl_service
    backendUrl := "http://localhost:8000"
    features :=
      { googleAuthEnabled := auth_type == "GOOGLE"
        localAuthEnabled := auth_type == "LOCAL" } }

/-- Modelled from the spec: the settings module `app.config` consumed by
`auth_config_routes` is not part of the excerpt; per the spec
("Environment inputs consumed: `AUTH_TYPE` (default `GOOGLE`), ..."), its
`AUTH_TYPE` attribute is the raw `AUTH_TYPE` environment value, absent
when unset. -/
def appConfig_AUTH_TYPE (env : Env) : Option String :=
  env.authType

/-- Modelled from the spec: `app.config`'s `ETL_SERVICE` attribute is the
raw `ETL_SERVICE` environment value, absent when unset. -/
def appConfig_ETL_SERVICE (env : Env) : Option String :=
  env.etlService

/-- The `GET /auth/config` response body (`auth_config_routes.get_auth_config`). -/
structure AuthConfig where
  authType : String
  etlService : String
  backendBaseUrl : String
deriving Repr, DecidableEq

/-- `auth_config_routes.get_auth_config`: `(config.AUTH_TYPE or
"GOOGLE").upper()`, `(config.ETL_SERVICE or "UNSTRUCTURED").upper()`, and
the request base URL with trailing slashes stripped. -/
def get_auth_config (env : Env) (base_url : String) : AuthConfig :=
  { authType := pyUpper (pyOr (appConfig_AUTH_TYPE env) "GOOGLE")
    etlService := pyUpper (pyOr (appConfig_ETL_SERVICE env) "UNSTRUCTURED")
    backendBaseUrl := rstripSlash base_url }

/-! ## The startup model-provisioning routine -/

/-- Log levels used by the routine. -/
inductive LogLevel
  | info
  | warning
  | error
deriving Repr, DecidableEq

/-- The filesystem state the routine can observe or change: whether the
model root (`MODEL_PATH`) exists, the entries of its `easyocr`
subdirectory (`none` = directory absent), and the entries of the shared
HuggingFace hub cache used by Docling. -/
structure FS where
  rootExists : Bool
  easyocrDir : Option (List String)
  hfHubDir : Option (List String)
deriving Repr, DecidableEq

/-- The external libraries invoked for their download side effect:
`easyocr.Reader([...])` and `docling.DocumentConverter()`.  Each either
succeeds, yielding the entries it leaves in its target directory, or
raises with a message. -/
structure World where
  easyocrReader : Except String (List String)
  doclingConverter : Except String (List String)
deriving Repr

/-- Result of one of the per-service checks: final filesystem state, its
log lines, how many times the library initializer was invoked, and the
normal return or raised exception. -/
structure SubResult where
  fs : FS
  log : List (LogLevel × String)
  invocations : Nat
  result : Except String Unit
deriving Repr

/-- Is the optional directory present and non-empty?  This is
`path.exists() and any(path.iterdir())`. -/
def dirNonEmpty (d : Option (List String)) : Bool :=
  match d with
  | some es => !es.isEmpty
  | none => false

/-- `startup._check_unstructured_models`: if the `easyocr` subdirectory
exists and has an entry, return at once; otherwise construct the
`easyocr.Reader` (which downloads), and on exception log the cause and
re-raise. -/
def check_unstructured_models (world : World) (fs : FS) : SubResult :=
  if dirNonEmpty fs.easyocrDir then
    ⟨fs, [(LogLevel.info, "✓ EasyOCR models already cached")], 0, Except.ok ()⟩
  else
    match world.easyocrReader with
    | Except.ok entries =>
        ⟨{ fs with easyocrDir := some entries },
          [(LogLevel.info, "Downloading EasyOCR models (first run)..."),
           (LogLevel.info, "✅ EasyOCR models downloaded successfully")],
          1, Except.ok ()⟩
    | Except.error e =>
        ⟨fs,
          [(LogLevel.info, "Downloading EasyOCR models (first run)..."),
           (LogLevel.error, "❌ Failed to download EasyOCR models: " ++ e)],
          1, Except.error e⟩

/-- `startup._check_docling_models`: computes the HuggingFace cache path
but never consults it — it always constructs `DocumentConverter` (which
downloads only what is missing), and on exception logs the cause and
re-raises. -/
def check_docling_models (world : World) (fs : FS) : SubResult :=
  match world.doclingConverter with
  | Except.ok entries =>
      ⟨{ fs with hfHubDir := some entries },
        [(LogLevel.info, "Checking Docling models (stored in HuggingFace cache)..."),
         (LogLevel.info, "✅ Docling models ready (cached in HuggingFace cache)")],
        1, Except.ok ()⟩
  | Except.error e =>
      ⟨fs,
        [(LogLevel.info, "Checking Docling models (stored in HuggingFace cache)..."),
         (LogLevel.error, "❌ Failed to prepare Docling models: " ++ e)],
        1, Except.error e⟩

/-- Result of `check_and_download_models`: final filesystem state, log,
invocation counts of the two library initializers, and the outcome. -/
structure CheckResult where
  fs : FS
  log : List (LogLevel × String)
  easyocrInvocations : Nat
  doclingInvocations : Nat
  result : Except String Unit
deriving Repr

/-- `startup.check_and_download_models`: reads `ETL_SERVICE` with
`os.getenv("ETL_SERVICE", "UNSTRUCTURED")`, unconditionally runs
`model_path.mkdir(parents=True, exist_ok=True)`, then branches on the
service name. -/
def check_and_download_models (world : World) (env : Env) (fs : FS) : CheckResult :=
  let etl_service := getenvD env.etlService "UNSTRUCTURED"
  let _model_path := getenvD env.modelPath "/app/models"
  let fs1 : FS := { fs with rootExists := true }
  let log0 : List (LogLevel × String) :=
    [(LogLevel.info, "Model check: ETL_SERVICE=" ++ etl_service)]
  if etl_service = "LLAMACLOUD" then
    ⟨fs1, log0 ++ [(LogLevel.info, "ETL_SERVICE=LLAMACLOUD: No local models needed")],
      0, 0, Except.ok ()⟩
  else if etl_service = "DOCLING" then
    let r := check_docling_models world fs1
    ⟨r.fs, log0 ++ r.log, 0, r.invocations, r.result⟩
  else if etl_service = "UNSTRUCTURED" then
    let r := check_unstructured_models world fs1
    ⟨r.fs, log0 ++ r.log, r.invocations, 0, r.result⟩
  else
    ⟨fs1, log0 ++ [(LogLevel.warning, "Unknown ETL_SERVICE: " ++ etl_service)],
      0, 0, Except.ok ()⟩

/-- Result of the bootstrap step in `main.py`: the state after the model
check, the log, and whether startup proceeds to launch the server. -/
structure BootResult where
  fs : FS
  log : List (LogLevel × String)
  serverStarts : Bool
deriving Repr

/-- The module-level `try/except` around `check_and_download_models` in
`main.py`: any exception is caught and logged and startup proceeds. -/
def bootstrap (world : World) (env : Env) (fs : FS) : BootResult :=
  let pre := [(LogLevel.info, "Checking ML models...")]
  let r := check_and_download_models world env fs
  match r.result with
  | Except.ok _ =>
      ⟨r.fs, pre ++ r.log ++ [(LogLevel.info, "Model check complete")], true⟩
  | Except.error e =>
      ⟨r.fs,
       pre ++ r.log ++
         [(LogLevel.error, "Model check failed: " ++ e),
          (LogLevel.warning, "Application will start but model-dependent features may not work")],
       true⟩

/-! ## Helper lemmas -/

/-- `Char.ofNat` at a valid codepoint round-trips through `toNat`. -/
theorem char_toNat_ofNat_valid (n : Nat) (h : n.isValidChar) :
    (Char.ofNat n).toNat = n := by
  rw [Char.ofNat, dif_pos h]
  simp [Char.ofNatAux, Char.toNat, UInt32.toNat]

/-- Upper-casing a character never yields a lower-case ASCII letter. -/
theorem isLowerAscii_toUpper (c : Char) : isLowerAscii c.toUpper = false := by
  unfold Char.toUpper
  dsimp only []
  split
  · next h =>
    have hv : (c.toNat - 32).isValidChar := by
      refine Or.inl ?_
      omega
    unfold isLowerAscii
    rw [char_toNat_ofNat_valid _ hv]
    simp only [Bool.and_eq_false_iff, decide_eq_false_iff_not]
    omega
  · next h =>
    unfold isLowerAscii
    simp only [Bool.and_eq_false_iff, decide_eq_false_iff_not]
    omega

/-- `pyUpper` outputs contain no lower-case ASCII letter. -/
theorem noLowerAscii_pyUpper (s : String) : noLowerAscii (pyUpper s) = true := by
  unfold noLowerAscii pyUpper
  show (s.data.map Char.toUpper).all (fun c => !(isLowerAscii c)) = true
  rw [List.all_map]
  simp [Function.comp, isLowerAscii_toUpper]

/-! ## Claims -/

/-- C1, counterexample: with `AUTH_TYPE=google`, `GET /config` returns
`authType = "google"` — a string containing lower-case letters, not the
claimed upper-case `"GOOGLE"`.  The claim as stated is false for the
`/config` endpoint. -/
theorem c1_counterexample :
    (get_frontend_config ⟨some "google", none, none⟩).authType = "google" ∧
    noLowerAscii (get_frontend_config ⟨some "google", none, none⟩).authType = false ∧
    (get_frontend_config ⟨some "google", none, none⟩).authType ≠ "GOOGLE" := by
  refine ⟨rfl, rfl, ?_⟩
  decide

/-- C1, amended: `GET /auth/config` returns `authType` and `etlService`
upper-cased regardless of the input's case, while `GET /config` returns
the configured values verbatim, with no case normalisation. -/
theorem c1_upper_auth_config_only (env : Env) (base_url : String) :
    noLowerAscii (get_auth_config env base_url).authType = true ∧
    noLowerAscii (get_auth_config env base_url).etlService = true ∧
    (get_frontend_config env).authType = pyOr env.authType "GOOGLE" ∧
    (get_frontend_config env).etlService = pyOr env.etlService "UNSTRUCTURED" :=
  ⟨noLowerAscii_pyUpper _, noLowerAscii_pyUpper _, rfl, rfl⟩

/-- C2: the bootstrap wrapper in `main.py` always lets startup proceed
(the server starts), and when the model check raises it logs the failure
with its cause and the degraded-features warning instead of re-raising. -/
theorem c2_bootstrap_suppresses (world : World) (env : Env) (fs : FS) :
    (bootstrap world env fs).serverStarts = true ∧
    (∀ e, (check_and_download_models world env fs).result = Except.error e →
      (LogLevel.error, "Model check failed: " ++ e) ∈ (bootstrap world env fs).log ∧
      (LogLevel.warning, "Application will start but model-dependent features may not work")
        ∈ (bootstrap world env fs).log) := by
  refine ⟨?_, fun e he => ?_⟩
  · unfold bootstrap
    dsimp only []
    split <;> rfl
  · unfold bootstrap
    dsimp only []
    split
    · next h =>
      rw [he] at h
      cases h
    · next e2 h =>
      rw [he] at h
      cases h
      constructor <;> simp

/-- C2 witness: a concrete failing download still lets the server start,
with the failure logged. -/
theorem c2_witness :
    (bootstrap ⟨Except.error "boom", Except.ok []⟩ ⟨none, some "UNSTRUCTURED", none⟩
        ⟨false, none, none⟩).serverStarts = true ∧
    (LogLevel.error, "Model check failed: " ++ "boom")
      ∈ (bootstrap ⟨Except.error "boom", Except.ok []⟩ ⟨none, some "UNSTRUCTURED", none⟩
          ⟨false, none, none⟩).log :=
  ⟨(c2_bootstrap_suppresses ⟨Except.error "boom", Except.ok []⟩
      ⟨none, some "UNSTRUCTURED", none⟩ ⟨false, none, none⟩).1,
   ((c2_bootstrap_suppresses ⟨Except.error "boom", Except.ok []⟩
      ⟨none, some "UNSTRUCTURED", none⟩ ⟨false, none, none⟩).2 "boom" rfl).1⟩

/-- C3, counterexample: the routine runs `model_path.mkdir(parents=True,
exist_ok=True)` before the `LLAMACLOUD` branch, so with an absent model
root and `ETL_SERVICE=LLAMACLOUD` the filesystem IS written: the model
root directory gets created. -/
theorem c3_counterexample :
    (FS.mk false none none).rootExists = false ∧
    (check_and_download_models ⟨Except.ok [], Except.ok []⟩ ⟨none, some "LLAMACLOUD", none⟩
        (FS.mk false none none)).fs.rootExists = true ∧
    (check_and_download_models ⟨Except.ok [], Except.ok []⟩ ⟨none, some "LLAMACLOUD", none⟩
        (FS.mk false none none)).fs ≠ FS.mk false none none := by
  refine ⟨rfl, rfl, ?_⟩
  decide

/-- C3, amended: with `ETL_SERVICE=LLAMACLOUD` the routine only ensures
the model root directory itself exists (the unconditional `mkdir`);
nothing under the model root is created, no library initializer is
invoked, and the routine returns without error. -/
theorem c3_llamacloud (world : World) (env : Env) (fs : FS)
    (h : env.etlService = some "LLAMACLOUD") :
    (check_and_download_models world env fs).fs = { fs with rootExists := true } ∧
    (check_and_download_models world env fs).fs.easyocrDir = fs.easyocrDir ∧
    (check_and_download_models world env fs).fs.hfHubDir = fs.hfHubDir ∧
    (check_and_download_models world env fs).easyocrInvocations = 0 ∧
    (check_and_download_models world env fs).doclingInvocations = 0 ∧
    (check_and_download_models world env fs).result = Except.ok () := by
  simp [check_and_download_models, getenvD, h]

/-- C3 witness: concrete `LLAMACLOUD` run. -/
theorem c3_witness :
    (check_and_download_models ⟨Except.ok ["w"], Except.ok ["h"]⟩
        ⟨none, some "LLAMACLOUD", none⟩ ⟨true, some ["m"], none⟩).fs
      = { FS.mk true (some ["m"]) none with rootExists := true } ∧
    (check_and_download_models ⟨Except.ok ["w"], Except.ok ["h"]⟩
        ⟨none, some "LLAMACLOUD", none⟩ ⟨true, some ["m"], none⟩).fs.easyocrDir
      = (FS.mk true (some ["m"]) none).easyocrDir ∧
    (check_and_download_models ⟨Except.ok ["w"], Except.ok ["h"]⟩
        ⟨none, some "LLAMACLOUD", none⟩ ⟨true, some ["m"], none⟩).fs.hfHubDir
      = (FS.mk true (some ["m"]) none).hfHubDir ∧
    (check_and_download_models ⟨Except.ok ["w"], Except.ok ["h"]⟩
        ⟨none, some "LLAMACLOUD", none⟩ ⟨true, some ["m"], none⟩).easyocrInvocations = 0 ∧
    (check_and_download_models ⟨Except.ok ["w"], Except.ok ["h"]⟩
        ⟨none, some "LLAMACLOUD", none⟩ ⟨true, some ["m"], none⟩).doclingInvocations = 0 ∧
    (check_and_download_models ⟨Except.ok ["w"], Except.ok ["h"]⟩
        ⟨none, some "LLAMACLOUD", none⟩ ⟨true, some ["m"], none⟩).result = Except.ok () :=
  c3_llamacloud ⟨Except.ok ["w"], Except.ok ["h"]⟩ ⟨none, some "LLAMACLOUD", none⟩
    ⟨true, some ["m"], none⟩ rfl

/-- C4: with `ETL_SERVICE=UNSTRUCTURED` and an existing non-empty
`easyocr` subdirectory, the routine returns successfully without invoking
any library initializer, leaving the subdirectory untouched. -/
theorem c4_cached_no_download (world : World) (env : Env) (fs : FS) (es : List String)
    (h1 : env.etlService = some "UNSTRUCTURED")
    (h2 : fs.easyocrDir = some es) (h3 : es ≠ []) :
    (check_and_download_models world env fs).easyocrInvocations = 0 ∧
    (check_and_download_models world env fs).doclingInvocations = 0 ∧
    (check_and_download_models world env fs).result = Except.ok () ∧
    (check_and_download_models world env fs).fs = { fs with rootExists := true } := by
  have hne : dirNonEmpty fs.easyocrDir = true := by
    rw [h2]
    simp [dirNonEmpty, h3]
  simp [check_and_download_models, getenvD, h1, check_unstructured_models, hne]

/-- C4 witness: concrete cached run (download oracle would fail if it
were consulted, showing it is not). -/
theorem c4_witness :
    (check_and_download_models ⟨Except.error "net down", Except.error "net down"⟩
        ⟨none, some "UNSTRUCTURED", none⟩ ⟨true, some ["craft_mlt_25k.pth"], none⟩).easyocrInvocations = 0 ∧
    (check_and_download_models ⟨Except.error "net down", Except.error "net down"⟩
        ⟨none, some "UNSTRUCTURED", none⟩ ⟨true, some ["craft_mlt_25k.pth"], none⟩).doclingInvocations = 0 ∧
    (check_and_download_models ⟨Except.error "net down", Except.error "net down"⟩
        ⟨none, some "UNSTRUCTURED", none⟩ ⟨true, some ["craft_mlt_25k.pth"], none⟩).result = Except.ok () ∧
    (check_and_download_models ⟨Except.error "net down", Except.error "net down"⟩
        ⟨none, some "UNSTRUCTURED", none⟩ ⟨true, some ["craft_mlt_25k.pth"], none⟩).fs
      = { FS.mk true (some ["craft_mlt_25k.pth"]) none with rootExists := true } :=
  c4_cached_no_download ⟨Except.error "net down", Except.error "net down"⟩
    ⟨none, some "UNSTRUCTURED", none⟩ ⟨true, some ["craft_mlt_25k.pth"], none⟩
    ["craft_mlt_25k.pth"] rfl rfl (by decide)

/-- C5: with `ETL_SERVICE=UNSTRUCTURED` and an absent or empty `easyocr`
subdirectory, the download step is invoked exactly once, and if it raises
the routine logs the underlying cause and re-raises the same error. -/
theorem c5_download_once (world : World) (env : Env) (fs : FS)
    (h1 : env.etlService = some "UNSTRUCTURED")
    (h2 : fs.easyocrDir = none ∨ fs.easyocrDir = some []) :
    (check_and_download_models world env fs).easyocrInvocations = 1 ∧
    (∀ e, world.easyocrReader = Except.error e →
      (check_and_download_models world env fs).result = Except.error e ∧
      (LogLevel.error, "❌ Failed to download EasyOCR models: " ++ e)
        ∈ (check_and_download_models world env fs).log) := by
  have hne : dirNonEmpty fs.easyocrDir = false := by
    rcases h2 with h | h <;> simp [dirNonEmpty, h]
  refine ⟨?_, fun e he => ?_⟩
  · simp only [check_and_download_models, getenvD, check_unstructured_models, h1]
    cases hr : world.easyocrReader <;> simp [hne, hr]
  · simp only [check_and_download_models, getenvD, check_unstructured_models, h1]
    simp [hne, he]

/-- C5 witness: concrete first-run failure propagates the cause. -/
theorem c5_witness :
    (check_and_download_models ⟨Except.error "connection reset", Except.ok []⟩
        ⟨none, some "UNSTRUCTURED", none⟩ ⟨false, none, none⟩).easyocrInvocations = 1 ∧
    (check_and_download_models ⟨Except.error "connection reset", Except.ok []⟩
        ⟨none, some "UNSTRUCTURED", none⟩ ⟨false, none, none⟩).result
      = Except.error "connection reset" ∧
    (LogLevel.error, "❌ Failed to download EasyOCR models: " ++ "connection reset")
      ∈ (check_and_download_models ⟨Except.error "connection reset", Except.ok []⟩
          ⟨none, some "UNSTRUCTURED", none⟩ ⟨false, none, none⟩).log :=
  ⟨(c5_download_once ⟨Except.error "connection reset", Except.ok []⟩
      ⟨none, some "UNSTRUCTURED", none⟩ ⟨false, none, none⟩ rfl (Or.inl rfl)).1,
   ((c5_download_once ⟨Except.error "connection reset", Except.ok []⟩
      ⟨none, some "UNSTRUCTURED", none⟩ ⟨false, none, none⟩ rfl (Or.inl rfl)).2
      "connection reset" rfl).1,
   ((c5_download_once ⟨Except.error "connection reset", Except.ok []⟩
      ⟨none, some "UNSTRUCTURED", none⟩ ⟨false, none, none⟩ rfl (Or.inl rfl)).2
      "connection reset" rfl).2⟩

/-- C6, counterexample: with `ETL_SERVICE=DOCLING` and an existing
non-empty HuggingFace cache directory, the routine still invokes the
library initializer — `_check_docling_models` computes the cache path but
never performs the exists-and-non-empty check the claim describes. -/
theorem c6_counterexample :
    (FS.mk true none (some ["models--ds4sd--docling-models"])).hfHubDir
      = some ["models--ds4sd--docling-models"] ∧
    (["models--ds4sd--docling-models"] : List String) ≠ [] ∧
    (check_and_download_models ⟨Except.ok [], Except.ok ["models--ds4sd--docling-models"]⟩
        ⟨none, some "DOCLING", none⟩
        (FS.mk true none (some ["models--ds4sd--docling-models"]))).doclingInvocations = 1 := by
  refine ⟨rfl, ?_, rfl⟩
  decide

/-- C6, amended: with `ETL_SERVICE=DOCLING` the routine performs no
directory check of its own: it always invokes the library initializer
(once); the routine succeeds exactly when the initializer does, and on
failure it logs the cause and re-raises the same error. -/
theorem c6_docling_always_inits (world : World) (env : Env) (fs : FS)
    (h : env.etlService = some "DOCLING") :
    (check_and_download_models world env fs).doclingInvocations = 1 ∧
    (check_and_download_models world env fs).easyocrInvocations = 0 ∧
    (∀ hf, world.doclingConverter = Except.ok hf →
      (check_and_download_models world env fs).result = Except.ok () ∧
      (check_and_download_models world env fs).fs
        = { fs with rootExists := true, hfHubDir := some hf }) ∧
    (∀ e, world.doclingConverter = Except.error e →
      (check_and_download_models world env fs).result = Except.error e ∧
      (LogLevel.error, "❌ Failed to prepare Docling models: " ++ e)
        ∈ (check_and_download_models world env fs).log) := by
  refine ⟨?_, ?_, fun hf hok => ?_, fun e he => ?_⟩
  · simp only [check_and_download_models, getenvD, check_docling_models, h]
    cases hr : world.doclingConverter <;> simp [hr]
  · simp only [check_and_download_models, getenvD, check_docling_models, h]
    cases hr : world.doclingConverter <;> simp [hr]
  · simp [check_and_download_models, getenvD, check_docling_models, h, hok]
  · simp [check_and_download_models, getenvD, check_docling_models, h, he]

/-- C6 witness: concrete `DOCLING` run with a non-empty cache still
initializes the converter once and succeeds. -/
theorem c6_witness :
    (check_and_download_models ⟨Except.ok [], Except.ok ["models--ds4sd--docling-models"]⟩
        ⟨none, some "DOCLING", none⟩
        ⟨true, none, some ["models--ds4sd--docling-models"]⟩).doclingInvocations = 1 ∧
    (check_and_download_models ⟨Except.ok [], Except.ok ["models--ds4sd--docling-models"]⟩
        ⟨none, some "DOCLING", none⟩
        ⟨true, none, some ["models--ds4sd--docling-models"]⟩).result = Except.ok () :=
  ⟨(c6_docling_always_inits ⟨Except.ok [], Except.ok ["models--ds4sd--docling-models"]⟩
      ⟨none, some "DOCLING", none⟩
      ⟨true, none, some ["models--ds4sd--docling-models"]⟩ rfl).1,
   ((c6_docling_always_inits ⟨Except.ok [], Except.ok ["models--ds4sd--docling-models"]⟩
      ⟨none, some "DOCLING", none⟩
      ⟨true, none, some ["models--ds4sd--docling-models"]⟩ rfl).2.2.1
      ["models--ds4sd--docling-models"] rfl).1⟩

/-- C7: with `ETL_SERVICE` set to anything other than `LLAMACLOUD`,
`DOCLING` or `UNSTRUCTURED`, the routine logs a warning naming the value,
performs no download, and returns without error. -/
theorem c7_unknown_service (world : World) (env : Env) (fs : FS) (s : String)
    (h1 : env.etlService = some s)
    (h2 : s ≠ "LLAMACLOUD") (h3 : s ≠ "DOCLING") (h4 : s ≠ "UNSTRUCTURED") :
    (check_and_download_models world env fs).result = Except.ok () ∧
    (check_and_download_models world env fs).easyocrInvocations = 0 ∧
    (check_and_download_models world env fs).doclingInvocations = 0 ∧
    (check_and_download_models world env fs).fs = { fs with rootExists := true } ∧
    (LogLevel.warning, "Unknown ETL_SERVICE: " ++ s)
      ∈ (check_and_download_models world env fs).log := by
  simp [check_and_download_models, getenvD, h1, h2, h3, h4]

/-- C7 witness: concrete unknown service value. -/
theorem c7_witness :
    (check_and_download_models ⟨Except.ok [], Except.ok []⟩
        ⟨none, some "UNKNOWN_VALUE", none⟩ ⟨false, none, none⟩).result = Except.ok () ∧
    (check_and_download_models ⟨Except.ok [], Except.ok []⟩
        ⟨none, some "UNKNOWN_VALUE", none⟩ ⟨false, none, none⟩).easyocrInvocations = 0 ∧
    (check_and_download_models ⟨Except.ok [], Except.ok []⟩
        ⟨none, some "UNKNOWN_VALUE", none⟩ ⟨false, none, none⟩).doclingInvocations = 0 ∧
    (check_and_download_models ⟨Except.ok [], Except.ok []⟩
        ⟨none, some "UNKNOWN_VALUE", none⟩ ⟨false, none, none⟩).fs
      = { FS.mk false none none with rootExists := true } ∧
    (LogLevel.warning, "Unknown ETL_SERVICE: " ++ "UNKNOWN_VALUE")
      ∈ (check_and_download_models ⟨Except.ok [], Except.ok []⟩
          ⟨none, some "UNKNOWN_VALUE", none⟩ ⟨false, none, none⟩).log :=
  c7_unknown_service ⟨Except.ok [], Except.ok []⟩ ⟨none, some "UNKNOWN_VALUE", none⟩
    ⟨false, none, none⟩ "UNKNOWN_VALUE" rfl (by decide) (by decide) (by decide)

/-- C8: whenever `AUTH_TYPE` is unset both config endpoints return
`authType = "GOOGLE"`, and whenever `ETL_SERVICE` is unset both return
`etlService = "UNSTRUCTURED"`. -/
theorem c8_defaults (env : Env) (base_url : String) :
    (env.authType = none →
      (get_frontend_config env).authType = "GOOGLE" ∧
      (get_auth_config env base_url).authType = "GOOGLE") ∧
    (env.etlService = none →
      (get_frontend_config env).etlService = "UNSTRUCTURED" ∧
      (get_auth_config env base_url).etlService = "UNSTRUCTURED") := by
  refine ⟨fun h => ⟨?_, ?_⟩, fun h => ⟨?_, ?_⟩⟩
  · simp only [get_frontend_config, h]
    decide
  · simp only [get_auth_config, appConfig_AUTH_TYPE, h]
    decide
  · simp only [get_frontend_config, h]
    decide
  · simp only [get_auth_config, appConfig_ETL_SERVICE, h]
    decide

/-- C8 witness: fully unset environment. -/
theorem c8_witness :
    ((get_frontend_config ⟨none, none, none⟩).authType = "GOOGLE" ∧
      (get_auth_config ⟨none, none, none⟩ "http://x/").authType = "GOOGLE") ∧
    ((get_frontend_config ⟨none, none, none⟩).etlService = "UNSTRUCTURED" ∧
      (get_auth_config ⟨none, none, none⟩ "http://x/").etlService = "UNSTRUCTURED") :=
  ⟨(c8_defaults ⟨none, none, none⟩ "http://x/").1 rfl,
   (c8_defaults ⟨none, none, none⟩ "http://x/").2 rfl⟩

/-- C9: in every `GET /config` response, `features.googleAuthEnabled` is
true iff the returned `authType` equals "GOOGLE", `features.localAuthEnabled`
is true iff it equals "LOCAL", and for any other `authType` both flags are
false. -/
theorem c9_feature_flags (env : Env) :
    ((get_frontend_config env).features.googleAuthEnabled = true ↔
      (get_frontend_config env).authType = "GOOGLE") ∧
    ((get_frontend_config env).features.localAuthEnabled = true ↔
      (get_frontend_config env).authType = "LOCAL") ∧
    ((get_frontend_config env).authType ≠ "GOOGLE" →
      (get_frontend_config env).authType ≠ "LOCAL" →
      (get_frontend_config env).features.googleAuthEnabled = false ∧
      (get_frontend_config env).features.localAuthEnabled = false) := by
  simp [get_frontend_config]
  exact fun h1 h2 => ⟨h1, h2⟩

/-- C9 witness: an `authType` that is neither "GOOGLE" nor "LOCAL" yields
both flags false. -/
theorem c9_witness :
    (get_frontend_config ⟨some "OTHER", none, none⟩).features.googleAuthEnabled = false ∧
    (get_frontend_config ⟨some "OTHER", none, none⟩).features.localAuthEnabled = false :=
  (c9_feature_flags ⟨some "OTHER", none, none⟩).2.2 (by decide) (by decide)

/-- C10: a set-but-empty `ETL_SERVICE` is handled inconsistently: both
config endpoints treat `""` like unset (returning "UNSTRUCTURED", the
auth route additionally upper-casing), while `check_and_download_models`
reads it with a default that applies only when the variable is unset, so
`""` falls through to the unknown-service branch: a warning is logged and
no provisioning happens. -/
theorem c10_empty_etl (env : Env) (base_url : String) (world : World) (fs : FS)
    (h : env.etlService = some "") :
    (get_frontend_config env).etlService = "UNSTRUCTURED" ∧
    (get_auth_config env base_url).etlService = "UNSTRUCTURED" ∧
    getenvD env.etlService "UNSTRUCTURED" = "" ∧
    (check_and_download_models world env fs).easyocrInvocations = 0 ∧
    (check_and_download_models world env fs).doclingInvocations = 0 ∧
    (check_and_download_models world env fs).result = Except.ok () ∧
    (LogLevel.warning, "Unknown ETL_SERVICE: " ++ "")
      ∈ (check_and_download_models world env fs).log := by
  refine ⟨?_, ?_, ?_, ?_⟩
  · simp only [get_frontend_config, h]
    decide
  · simp only [get_auth_config, appConfig_ETL_SERVICE, h]
    decide
  · simp [getenvD, h]
  · simp [check_and_download_models, getenvD, h]

/-- C10 witness: concrete run with `ETL_SERVICE=""`. -/
theorem c10_witness :
    (get_frontend_config ⟨none, some "", none⟩).etlService = "UNSTRUCTURED" ∧
    (get_auth_config ⟨none, some "", none⟩ "http://x/").etlService = "UNSTRUCTURED" ∧
    getenvD (Env.mk none (some "") none).etlService "UNSTRUCTURED" = "" ∧
    (check_and_download_models ⟨Except.ok [], Except.ok []⟩ ⟨none, some "", none⟩
        ⟨false, none, none⟩).easyocrInvocations = 0 ∧
    (check_and_download_models ⟨Except.ok [], Except.ok []⟩ ⟨none, some "", none⟩
        ⟨false, none, none⟩).doclingInvocations = 0 ∧
    (check_and_download_models ⟨Except.ok [], Except.ok []⟩ ⟨none, some "", none⟩
        ⟨false, none, none⟩).result = Except.ok () ∧
    (LogLevel.warning, "Unknown ETL_SERVICE: " ++ "")
      ∈ (check_and_download_models ⟨Except.ok [], Except.ok []⟩ ⟨none, some "", none⟩
          ⟨false, none, none⟩).log :=
  c10_empty_etl ⟨none, some "", none⟩ "http://x/" ⟨Except.ok [], Except.ok []⟩
    ⟨false, none, none⟩ rfl
